import Mathlib

/-!
Verification of the BSS map-parser (`map_parser.py`).

The parser is embedded shallowly: each regular expression of the source is
translated to an executable matcher on `List Char` (with the exact
backtracking semantics of the Python `re` pattern it embeds), the line loop
of `parse_map_file` becomes a recursion over the list of lines, and the
process boundary (file-open failure, mid-scan exception, `sys.exit`) is an
explicit outcome type.
-/

namespace MapParser

/-- Python `\s` / `str.strip` whitespace, ASCII range. -/
def isPySpace (c : Char) : Bool :=
  c = ' ' || c = '\t' || c = '\n' || c = '\r' || c = '\x0b' || c = '\x0c'

/-- Hex digit class `[0-9a-fA-F]`. -/
def isHexDigit (c : Char) : Bool :=
  ('0' ≤ c && c ≤ '9') || ('a' ≤ c && c ≤ 'f') || ('A' ≤ c && c ≤ 'F')

/-- Python `\w` on ASCII: `[a-zA-Z0-9_]`. -/
def isWordChar (c : Char) : Bool :=
  ('a' ≤ c && c ≤ 'z') || ('A' ≤ c && c ≤ 'Z') || ('0' ≤ c && c ≤ '9') || c = '_'

/-- First character of the symbol-name grammar: `[a-zA-Z_]`. -/
def isIdentStart (c : Char) : Bool :=
  ('a' ≤ c && c ≤ 'z') || ('A' ≤ c && c ≤ 'Z') || c = '_'

/-- Continuation character of the symbol-name grammar: `[a-zA-Z0-9_$.@*]`. -/
def isIdentChar (c : Char) : Bool :=
  ('a' ≤ c && c ≤ 'z') || ('A' ≤ c && c ≤ 'Z') || ('0' ≤ c && c ≤ '9') ||
    c = '_' || c = '$' || c = '.' || c = '@' || c = '*'

/-- Python `str.strip()`. -/
def pyStrip (s : List Char) : List Char :=
  ((s.dropWhile isPySpace).reverse.dropWhile isPySpace).reverse

/-- Value of a single hex digit. -/
def hexDigitVal (c : Char) : Nat :=
  if '0' ≤ c && c ≤ '9' then c.toNat - '0'.toNat
  else if 'a' ≤ c && c ≤ 'f' then c.toNat - 'a'.toNat + 10
  else if 'A' ≤ c && c ≤ 'F' then c.toNat - 'A'.toNat + 10
  else 0

/-- Python `int(s, 16)` on a non-empty all-hex string (the only way the
source calls it, because every size/address group is `[0-9a-fA-F]+`). -/
def hexVal (s : List Char) : Nat :=
  s.foldl (fun a c => a * 16 + hexDigitVal c) 0

/-- ASCII lower-casing, for the `re.IGNORECASE` patterns. -/
def pyLowerChar (c : Char) : Char :=
  if 'A' ≤ c && c ≤ 'Z' then Char.ofNat (c.toNat + 32) else c

def pyLower (s : List Char) : List Char := s.map pyLowerChar

/-- Substring test, Python `needle in s` (also `List.isInfixOf`). -/
def containsSub (needle : List Char) : List Char → Bool
  | [] => needle.isEmpty
  | c :: rest => needle.isPrefixOf (c :: rest) || containsSub needle rest

/-- Whitespace-token accumulator. -/
def tokensAux (cur : List Char) : List Char → List (List Char)
  | [] => if cur.isEmpty then [] else [cur.reverse]
  | c :: rest =>
    if isPySpace c then
      if cur.isEmpty then tokensAux [] rest else cur.reverse :: tokensAux [] rest
    else tokensAux (c :: cur) rest

/-- The maximal whitespace-separated tokens of a line. -/
def tokens (s : List Char) : List (List Char) := tokensAux [] s

/-!
The token-shaped patterns.  In each of them, the character classes of
adjacent atoms (`[0-9a-fA-F]+` / `\S+` / literal section names vs `\s`) are
disjoint, so greedy matching never backtracks across a whitespace gap and
the pattern is equivalent to a condition on the whitespace-separated tokens
of the line.
-/

/-- Matcher for `bss_header_pattern = ^\s*[0-9a-fA-F]+\s+[0-9a-fA-F]+\s+([0-9a-fA-F]+)\s+\S+\s+\.bss\s*$`
(source line 73); returns group 1, the hex size field. -/
def bss_header_match (s : List Char) : Option (List Char) :=
  match tokens s with
  | [t1, t2, t3, _t4, t5] =>
    if t1.all isHexDigit && t2.all isHexDigit && t3.all isHexDigit &&
        t5 = ['.', 'b', 's', 's'] then some t3 else none
  | _ => none

/-- The simple alternatives of `other_section_header_pattern`'s group. -/
def otherSectionNames : List (List Char) :=
  [['t','e','x','t'], ['d','a','t','a'], ['r','o','d','a','t','a'],
   ['s','t','a','c','k'], ['h','e','a','p'], ['c','o','m','m','o','n'],
   ['d','e','b','u','g']]

/-- Does a token match `\.(text|data|rodata|stack|heap|common|DEBUG|ARM.exidx)`
to its end, case-insensitively?  Note the mandatory leading literal dot, and
that in `ARM.exidx` the unescaped `.` matches any character. -/
def other_section_name_match (t : List Char) : Bool :=
  match t with
  | '.' :: rest =>
    let low := pyLower rest
    otherSectionNames.contains low ||
      (rest.length = 9 && low.take 3 = ['a','r','m'] && low.drop 4 = ['e','x','i','d','x'])
  | _ => false

/-- Matcher for `other_section_header_pattern` (source line 99), `re.IGNORECASE`. -/
def other_section_header_match (s : List Char) : Bool :=
  match tokens s with
  | [t1, t2, t3, _t4, t5] =>
    t1.all isHexDigit && t2.all isHexDigit && t3.all isHexDigit &&
      other_section_name_match t5
  | _ => false

/-- The end-marker alternatives of `ebss_pattern`, lower-cased. -/
def ebssMarkers : List (List Char) :=
  [['_','e','b','s','s'], ['_','e','n','d'],
   ['_','_','b','s','s','_','e','n','d','_','_'],
   ['c','o','m','m','o','n']]

/-- Does a token start with one of the markers followed by a `\b` word
boundary (end of token, or a non-word character)? -/
def marker_with_boundary (t : List Char) : Bool :=
  ebssMarkers.any fun m =>
    m.isPrefixOf (pyLower t) &&
      (match (t.drop m.length).head? with
       | none => true
       | some c => !isWordChar c)

/-- Matcher for `ebss_pattern = ^\s*[0-9a-fA-F]+\s+[0-9a-fA-F]+\s+\S+\s+\S+\s+(_ebss|_end|__bss_end__|COMMON)\b`
(source line 102), `re.IGNORECASE`; `search` with a `^` anchor only matches
at the start, so this is a prefix condition on the first five tokens. -/
def ebss_search (s : List Char) : Bool :=
  match tokens s with
  | t1 :: t2 :: _t3 :: _t4 :: t5 :: _ =>
    t1.all isHexDigit && t2.all isHexDigit && marker_with_boundary t5
  | _ => false

/-- Matcher for `re.search(r"\.\w+\s+", line)` (source line 138): somewhere a literal
dot, a non-empty word-character run, then a whitespace character. -/
def dot_word_space_search : List Char → Bool
  | [] => false
  | c :: rest =>
    (c = '.' &&
      (let run := rest.takeWhile isWordChar
       !run.isEmpty &&
         (match (rest.drop run.length).head? with
          | some d => isPySpace d
          | none => false))) ||
    dot_word_space_search rest

/-- Matcher for `line_parser_pattern = ^\s*(hex+)\s+(hex+)\s+(hex+)\s+(hex+)\s*(.*)$`
(source line 80).  Groups 1-3 are full hex tokens (each must be followed by
whitespace); group 4 is the maximal hex run at the fourth field, after which
`\s*` skips whitespace and group 5 takes the rest of the line. -/
def hexTokenThenSpace (s : List Char) : Option (List Char × List Char) :=
  let g := s.takeWhile isHexDigit
  let r := s.dropWhile isHexDigit
  if g.isEmpty then none
  else
    match r with
    | c :: _ => if isPySpace c then some (g, r.dropWhile isPySpace) else none
    | [] => none

def line_parser_match (s : List Char) :
    Option (List Char × List Char × List Char × List Char × List Char) :=
  match hexTokenThenSpace (s.dropWhile isPySpace) with
  | none => none
  | some (g1, r1) =>
    match hexTokenThenSpace r1 with
    | none => none
    | some (g2, r2) =>
      match hexTokenThenSpace r2 with
      | none => none
      | some (g3, r3) =>
        let g4 := r3.takeWhile isHexDigit
        if g4.isEmpty then none
        else
          let g5 := (r3.dropWhile isHexDigit).dropWhile isPySpace
          some (g1, g2, g3, g4, g5)

/-- From a split position: `\s*:\s*\(`, returning what follows the `(`. -/
def colon_paren_from (s : List Char) : Option (List Char) :=
  match s.dropWhile isPySpace with
  | ':' :: r =>
    (match r.dropWhile isPySpace with
     | '(' :: r2 => some r2
     | _ => none)
  | _ => none

/-- One split position of `obj_file_and_section_content_pattern`: after the
`(` the non-greedy group 2 with `\)$` forces the whole string to end in `)`
and takes everything up to that final parenthesis. -/
def obj_sec_try_here (s : List Char) : Option (List Char) :=
  match colon_paren_from s with
  | some r => if r.getLast? = some ')' then some r.dropLast else none
  | none => none

/-- Matcher for `obj_file_and_section_content_pattern = ^(.*?)\s*:\s*\((.*?)\)$`
(source line 86): the non-greedy group 1 grows from the left, so the first
split position whose tail matches `\s*:\s*\((.*?)\)$` wins. -/
def obj_sec_match_aux (pre : List Char) : List Char → Option (List Char × List Char)
  | [] => none
  | c :: rest =>
    match obj_sec_try_here (c :: rest) with
    | some content => some (pre.reverse, content)
    | none => obj_sec_match_aux (c :: pre) rest

def obj_sec_match (s : List Char) : Option (List Char × List Char) :=
  obj_sec_match_aux [] s

/-- A whole string matching `[a-zA-Z_][a-zA-Z0-9_$.@*]*` (non-empty). -/
def ident_to_end (s : List Char) : Option (List Char) :=
  match s with
  | c :: r => if isIdentStart c && r.all isIdentChar then some (c :: r) else none
  | [] => none

/-- One anchor position of `symbol_in_section_pattern = \.bss\.?(ident)$`
(source line 90): literal `.bss`, a greedily-optional dot (the fallback arm
of the `<|>` is the backtracked empty `\.?`), then the identifier running to
the end of the string. -/
def bss_sym_try_at (s : List Char) : Option (List Char) :=
  match s with
  | '.' :: 'b' :: 's' :: 's' :: rest =>
    (match rest with
     | '.' :: r2 => (ident_to_end r2).orElse fun _ => ident_to_end rest
     | _ => ident_to_end rest)
  | _ => none

/-- Search (`re.search`) for `symbol_in_section_pattern`: leftmost match wins. -/
def bss_sym_search : List Char → Option (List Char)
  | [] => none
  | c :: rest => (bss_sym_try_at (c :: rest)).orElse fun _ => bss_sym_search rest

/-- Matcher for `plain_symbol_pattern = ^\s*([a-zA-Z_][a-zA-Z0-9_$.@*]*)\s*$`
(source line 95). -/
def plain_symbol_match (s : List Char) : Option (List Char) :=
  let s1 := s.dropWhile isPySpace
  match s1 with
  | c :: r =>
    if isIdentStart c then
      let run := r.takeWhile isIdentChar
      if (r.drop run.length).all isPySpace then some (c :: run) else none
    else none
  | [] => none

/-- One entry of the `bss_symbols` list (the dictionaries built at source
lines 198-204; `padding_before` is attached by the post-pass at lines
214-228, initialised to 0 here since every returned symbol gets it set). -/
structure Symbol where
  name : String
  size_hex : String
  size_dec : Nat
  vma : Nat
  object_file : String
  padding_before : Nat
deriving DecidableEq, Repr

/-- The (name, object_file, size) key of source line 195. -/
def symKey (s : Symbol) : String × String × Nat := (s.name, s.object_file, s.size_dec)

/-- The mutable locals of `parse_map_file` threaded through the line loop
(source lines 62-68).  The Python `set` is modelled by a key list with
membership testing. -/
structure ScanState where
  total_bss_size : Nat
  bss_symbols : List Symbol
  in_bss_section : Bool
  current_object_file_context : List Char
  added_symbols_set : List (String × String × Nat)
deriving DecidableEq, Repr

def initState : ScanState :=
  { total_bss_size := 0
    bss_symbols := []
    in_bss_section := false
    current_object_file_context := ['u','n','k','n','o','w','n']
    added_symbols_set := [] }

/-- The object-file extensions of source line 165. -/
def objExts : List (List Char) :=
  [['.','o'], ['.','o','b','j'], ['.','a'], ['.','l','i','b'], ['.','e','l','f'], ['.','s']]

def ends_with_obj_ext (p : List Char) : Bool :=
  objExts.any fun e => e.isSuffixOf p

/-- The three exit checks of source lines 128-141; each fires the identical
`in_bss_section = False; break`, so they are collapsed into one disjunction
evaluated in the source's order. -/
def exit_conditions (sl : List Char) : Bool :=
  other_section_header_match sl ||
  (ebss_search sl || containsSub ['_','e','b','s','s'] sl) ||
  (dot_word_space_search sl && !containsSub ['.','b','s','s'] sl)

/-- Classification of the remainder of a symbol-record line (source lines
155-182): returns (symbol name, object file for the symbol, new sticky
context). -/
def classify_remainder (ctx remainder : List Char) :
    Option (List Char) × Option (List Char) × List Char :=
  match obj_sec_match remainder with
  | some (p0, c0) =>
    let path := pyStrip p0
    let newCtx := if ends_with_obj_ext path then path else ctx
    (bss_sym_search (pyStrip c0), some newCtx, newCtx)
  | none =>
    match plain_symbol_match remainder with
    | some nm => (some nm, some ctx, ctx)
    | none => (none, none, ctx)

/-- Source lines 184-205: drop the zero-size `_bss`/`_ebss` linker
artifacts, normalise a falsy object file to "unknown", and append the
symbol unless its (name, object_file, size) key was already added. -/
def maybe_add (st : ScanState) (nm objFile sizeHex : List Char) (sizeDec vma : Nat) :
    ScanState :=
  if sizeDec = 0 && (nm = ['_','b','s','s'] || nm = ['_','e','b','s','s']) then st
  else
    let finalObj := if objFile.isEmpty then ['u','n','k','n','o','w','n'] else objFile
    let key : String × String × Nat := (String.mk nm, String.mk finalObj, sizeDec)
    if key ∈ st.added_symbols_set then st
    else
      { st with
        bss_symbols := st.bss_symbols ++
          [{ name := String.mk nm
             size_hex := String.mk sizeHex
             size_dec := sizeDec
             vma := vma
             object_file := String.mk finalObj
             padding_before := 0 }]
        added_symbols_set := key :: st.added_symbols_set }

/-- Body of the line loop of `parse_map_file` (source lines 106-205).
Returns the new state and whether the loop `break`s at this line. -/
def process_line (st : ScanState) (line : String) : ScanState × Bool :=
  let sl := pyStrip line.toList
  if sl.isEmpty then (st, false)
  else if st.in_bss_section = false then
    match bss_header_match sl with
    | some sizeHex =>
      ({ st with total_bss_size := hexVal sizeHex, in_bss_section := true }, false)
    | none => (st, false)
  else if exit_conditions sl then
    ({ st with in_bss_section := false }, true)
  else
    match line_parser_match sl with
    | none => (st, false)
    | some g =>
      let sizeDec := hexVal g.2.2.1
      let remainder := pyStrip g.2.2.2.2
      let cls := classify_remainder st.current_object_file_context remainder
      let st1 := { st with current_object_file_context := cls.2.2 }
      match cls.1 with
      | some nm => (maybe_add st1 nm (cls.2.1.getD []) g.2.2.1 sizeDec (hexVal g.1), false)
      | none => (st1, false)

/-- The whole `for line in f` loop with its `break`s. -/
def scanLines (st : ScanState) : List String → ScanState
  | [] => st
  | l :: ls =>
    match process_line st l with
    | (st', true) => st'
    | (st', false) => scanLines st' ls

/-- The padding post-pass of source lines 211-231: walk the address-sorted
symbols carrying `previous_end`, record positive gaps as `padding_before`
and accumulate them into `total_padding`. -/
def paddingLoop (prevEnd : Option Int) (total : Nat) : List Symbol → List Symbol × Nat
  | [] => ([], total)
  | s :: rest =>
    let pad : Nat :=
      match prevEnd with
      | some pe => ((s.vma : Int) - pe).toNat
      | none => 0
    let out := paddingLoop (some ((s.vma : Int) + (s.size_dec : Int))) (total + pad) rest
    ({ s with padding_before := pad } :: out.1, out.2)

/-- The key order of the sort at source line 208. -/
def vmaLe (a b : Symbol) : Prop := a.vma ≤ b.vma

instance : DecidableRel vmaLe := fun a b => Nat.decLe a.vma b.vma

instance : IsTotal Symbol vmaLe := ⟨fun a b => Nat.le_total a.vma b.vma⟩

instance : IsTrans Symbol vmaLe := ⟨fun _ _ _ h1 h2 => Nat.le_trans h1 h2⟩

/-- The function `parse_map_file` with the file already read into lines (source lines
62-231 and the return at 240): scan, sort by address (Python's stable sort,
modelled by a stable insertion sort), compute padding. -/
def parse_map_file (lines : List String) : List Symbol × Nat × Nat :=
  let st := scanLines initState lines
  let sorted := List.insertionSort vmaLe st.bss_symbols
  let padded := paddingLoop none 0 sorted
  (padded.1, st.total_bss_size, padded.2)

/-- How one invocation's file access can go: the open fails
(`FileNotFoundError`), some exception is raised mid-scan after a prefix of
the lines was read (`isIOError` records whether it was an I/O failure), or
all lines are delivered. -/
inductive FileOutcome
  | openFail
  | readFail (isIOError : Bool) (linesRead : List String)
  | ok (lines : List String)
deriving DecidableEq, Repr

/-- What the process observes from a call to `parse_map_file`: either
`sys.exit(status)` after a diagnostic was (or was not) written to stderr,
or a normal return of the 3-tuple. -/
inductive ProcResult
  | exited (status : Nat) (wroteStderr : Bool)
  | returned (res : List Symbol × Nat × Nat)
deriving DecidableEq, Repr

/-- The exception boundary of `parse_map_file` (source lines 104 and
233-240): `FileNotFoundError` and any other `Exception` are caught, a
diagnostic is printed to stderr and the process exits with status 1;
otherwise the triple is returned. -/
def parse_map_file_outcome : FileOutcome → ProcResult
  | .openFail => .exited 1 true
  | .readFail _ _ => .exited 1 true
  | .ok lines => .returned (parse_map_file lines)

/-- The one exception `print_symbols` can raise: Python's
`ZeroDivisionError`. -/
inductive PyError
  | zeroDivision
deriving DecidableEq, Repr

instance {ε α : Type} [DecidableEq ε] [DecidableEq α] : DecidableEq (Except ε α) := fun a b =>
  match a, b with
  | .error x, .error y =>
    if h : x = y then isTrue (congrArg Except.error h)
    else isFalse fun hc => h (Except.error.inj hc)
  | .error _, .ok _ => isFalse fun hc => Except.noConfusion hc
  | .ok _, .error _ => isFalse fun hc => Except.noConfusion hc
  | .ok x, .ok y =>
    if h : x = y then isTrue (congrArg Except.ok h)
    else isFalse fun hc => h (Except.ok.inj hc)

/-- Python `x / y` (true division) on the sizes, as exact rationals: raises
`ZeroDivisionError` when the denominator is zero. -/
def py_div (num den : Nat) : Except PyError Rat :=
  if den = 0 then .error .zeroDivision else .ok ((num : Rat) / (den : Rat))

/-- One printed table row: the data the formatting at source lines 336-341
renders (column layout and hex rendering are presentation only and carry no
further arithmetic). -/
structure ReportRow where
  name : String
  size_dec : Nat
  percentage : Rat
  object_file : String
deriving DecidableEq, Repr

/-- The size-descending display order of source line 282 (stable, like
Python's `sort(..., reverse=True)`). -/
def sizeDesc (a b : Symbol) : Prop := b.size_dec ≤ a.size_dec

instance : DecidableRel sizeDesc := fun a b => Nat.decLe b.size_dec a.size_dec

/-- The column-width loop of source lines 298-303: for every symbol it
computes `(size / total_bss_size) * 100` with no zero guard (only the
division matters here; the resulting string lengths are layout). -/
def width_pass (total_bss_size : Nat) : List Symbol → Except PyError Unit
  | [] => .ok ()
  | s :: rest =>
    match py_div s.size_dec total_bss_size with
    | .error e => .error e
    | .ok _ => width_pass total_bss_size rest

/-- The row loop of source lines 319-345: `symbol_size` sums every symbol
(line 320 runs before the filters), the `min_size` and SDK filters skip the
row, and the row percentage (line 330) divides only when
`total_bss_size > 0`, reporting 0 otherwise. -/
def row_pass (total_bss_size : Nat) (with_sdk : Bool) (min_size : Int) :
    List Symbol → List ReportRow × Nat × Nat × Nat
  | [] => ([], 0, 0, 0)
  | s :: rest =>
    let (rows, nb, symbolSize, computedSize) :=
      row_pass total_bss_size with_sdk min_size rest
    if (s.size_dec : Int) < min_size then (rows, nb, symbolSize + s.size_dec, computedSize)
    else if !with_sdk && containsSub "/obj/sdk/".toList s.object_file.toList then
      (rows, nb, symbolSize + s.size_dec, computedSize)
    else
      let percentage : Rat :=
        if total_bss_size > 0 then ((s.size_dec : Rat) / (total_bss_size : Rat)) * 100 else 0
      (⟨s.name, s.size_dec, percentage, s.object_file⟩ :: rows,
        nb + 1, symbolSize + s.size_dec, computedSize + s.size_dec)

/-- What `print_symbols` (source lines 266-366) prints, beyond fixed text:
the rows, the counters, the two padding figures and the padding percentage
(line 361, guarded).  The unguarded width-pass division of line 303 makes
the whole call raise `ZeroDivisionError` before any row is printed when
`total_bss_size = 0` and the symbol list is non-empty. -/
def print_symbols (bss_symbols : List Symbol) (total_bss_size _total_padding : Nat)
    (with_sdk : Bool) (min_size : Int) :
    Except PyError (List ReportRow × Nat × Nat × Nat × Int × Rat) :=
  let sorted := List.insertionSort sizeDesc bss_symbols
  match width_pass total_bss_size sorted with
  | .error e => .error e
  | .ok _ =>
    let (rows, nb, symbolSize, computedSize) :=
      row_pass total_bss_size with_sdk min_size sorted
    let padding_size : Int := (total_bss_size : Int) - (symbolSize : Int)
    let padding_percentage : Rat :=
      if total_bss_size > 0 then ((padding_size : Rat) / (total_bss_size : Rat)) * 100 else 0
    .ok (rows, nb, symbolSize, computedSize, padding_size, padding_percentage)

/-- A symbol with its post-pass field cleared; two symbols agree on every
scan-time field iff their `stripPad` images are equal. -/
def stripPad (s : Symbol) : Symbol := { s with padding_before := 0 }

/-- The padding law the post-pass establishes between consecutive symbols of
the address-sorted list. -/
def padRel (a b : Symbol) : Prop :=
  (b.padding_before : Int) = max 0 ((b.vma : Int) - ((a.vma : Int) + (a.size_dec : Int)))

/-- Scan invariant: the recorded symbol keys are pairwise distinct and every
recorded key is in the duplicate-suppression set. -/
def Inv (st : ScanState) : Prop :=
  (st.bss_symbols.map symKey).Nodup ∧
    ∀ k ∈ st.bss_symbols.map symKey, k ∈ st.added_symbols_set

/-- Modelled from the claim's words (not from the source): the line contains
a dotted section tag — a token shaped `\.word` — that is not `.bss`. -/
def contains_dotted_tag_other_than_bss : List Char → Bool
  | [] => false
  | c :: rest =>
    (c = '.' &&
      (let run := rest.takeWhile isWordChar
       !run.isEmpty && !(run == ['b', 's', 's']))) ||
    contains_dotted_tag_other_than_bss rest

/-! ## Lemmas about the padding post-pass -/

theorem stripPad_set (s : Symbol) (p : Nat) :
    stripPad { s with padding_before := p } = stripPad s := rfl

theorem paddingLoop_map_stripPad (l : List Symbol) : ∀ pe t,
    ((paddingLoop pe t l).1).map stripPad = l.map stripPad := by
  induction l with
  | nil => intro pe t; rfl
  | cons s rest ih => intro pe t; simp [paddingLoop, ih, stripPad_set]

theorem paddingLoop_snd (l : List Symbol) : ∀ pe t,
    (paddingLoop pe t l).2 =
      t + (((paddingLoop pe t l).1).map Symbol.padding_before).sum := by
  induction l with
  | nil => intro pe t; simp [paddingLoop]
  | cons s rest ih =>
    intro pe t
    simp only [paddingLoop, List.map_cons, List.sum_cons]
    rw [ih]
    omega

theorem paddingLoop_headI (l : List Symbol) (t : Nat) :
    (((paddingLoop none t l).1).map Symbol.padding_before).headI = 0 := by
  cases l <;> simp [paddingLoop]

theorem paddingLoop_fst_head (pe : Int) (t : Nat) (s : Symbol) (rest : List Symbol) :
    ((paddingLoop (some pe) t (s :: rest)).1).head? =
      some { s with padding_before := ((s.vma : Int) - pe).toNat } := by
  simp [paddingLoop]

theorem paddingLoop_chain (l : List Symbol) : ∀ pe t,
    List.Chain' padRel ((paddingLoop pe t l).1) := by
  induction l with
  | nil => intro pe t; simp [paddingLoop]
  | cons s rest ih =>
    intro pe t
    simp only [paddingLoop]
    rw [List.chain'_cons']
    refine ⟨?_, ih _ _⟩
    intro y hy
    cases rest with
    | nil => simp [paddingLoop] at hy
    | cons s2 r2 =>
      rw [paddingLoop_fst_head] at hy
      cases hy
      show (((s2.vma : Int) - ((s.vma : Int) + (s.size_dec : Int))).toNat : Int) =
        max 0 ((s2.vma : Int) - ((s.vma : Int) + (s.size_dec : Int)))
      rw [Int.toNat_eq_max, max_comm]

theorem map_vma_stripPad (l : List Symbol) :
    (l.map stripPad).map Symbol.vma = l.map Symbol.vma := by
  rw [List.map_map]; rfl

theorem map_symKey_stripPad (l : List Symbol) :
    (l.map stripPad).map symKey = l.map symKey := by
  rw [List.map_map]; rfl

theorem paddingLoop_map_vma (l : List Symbol) (pe : Option Int) (t : Nat) :
    ((paddingLoop pe t l).1).map Symbol.vma = l.map Symbol.vma := by
  rw [← map_vma_stripPad, paddingLoop_map_stripPad, map_vma_stripPad]

theorem paddingLoop_map_symKey (l : List Symbol) (pe : Option Int) (t : Nat) :
    ((paddingLoop pe t l).1).map symKey = l.map symKey := by
  rw [← map_symKey_stripPad, paddingLoop_map_stripPad, map_symKey_stripPad]

theorem parse_map_file_sorted (lines : List String) :
    ((parse_map_file lines).1).Pairwise vmaLe := by
  have hs : List.Sorted vmaLe
      (List.insertionSort vmaLe (scanLines initState lines).bss_symbols) :=
    List.sorted_insertionSort vmaLe _
  have h1 : (((paddingLoop none 0
      (List.insertionSort vmaLe (scanLines initState lines).bss_symbols)).1).map
        Symbol.vma).Pairwise (· ≤ ·) := by
    rw [paddingLoop_map_vma]
    exact (List.pairwise_map).2 hs
  have h2 : ((paddingLoop none 0
      (List.insertionSort vmaLe (scanLines initState lines).bss_symbols)).1).Pairwise
        (fun a b => a.vma ≤ b.vma) := (List.pairwise_map).1 h1
  exact h2

/-! ## The duplicate-suppression invariant of the scan -/

theorem nodup_map_symKey_append (syms : List Symbol) (s : Symbol)
    (keys : List (String × String × Nat)) (h1 : (syms.map symKey).Nodup)
    (h2 : ∀ k ∈ syms.map symKey, k ∈ keys) (hmem : symKey s ∉ keys) :
    ((syms ++ [s]).map symKey).Nodup ∧
      ∀ k ∈ (syms ++ [s]).map symKey, k ∈ symKey s :: keys := by
  constructor
  · rw [List.map_append, List.nodup_append]
    refine ⟨h1, List.nodup_singleton _, ?_⟩
    intro k hk hk1
    rw [List.map_singleton, List.mem_singleton] at hk1
    subst hk1
    exact hmem (h2 _ hk)
  · intro k hk
    rw [List.map_append, List.mem_append] at hk
    cases hk with
    | inl hk0 => exact List.mem_cons_of_mem _ (h2 k hk0)
    | inr hk1 =>
      rw [List.map_singleton, List.mem_singleton] at hk1
      subst hk1
      exact List.mem_cons_self _ _

theorem inv_maybe_add (st : ScanState) (nm objFile sizeHex : List Char)
    (sizeDec vma : Nat) (h : Inv st) :
    Inv (maybe_add st nm objFile sizeHex sizeDec vma) := by
  simp only [maybe_add]
  split
  · exact h
  · split
    · split
      · exact h
      · rename_i hmem
        exact nodup_map_symKey_append _ _ _ h.1 h.2 hmem
    · split
      · exact h
      · rename_i hmem
        exact nodup_map_symKey_append _ _ _ h.1 h.2 hmem

theorem inv_process_line (st : ScanState) (l : String) (h : Inv st) :
    Inv (process_line st l).1 := by
  simp only [process_line]
  split
  · exact h
  · split
    · split
      · exact h
      · exact h
    · split
      · exact h
      · split
        · exact h
        · split
          · exact inv_maybe_add _ _ _ _ _ _ h
          · exact h

theorem inv_scanLines (ls : List String) : ∀ st : ScanState, Inv st →
    Inv (scanLines st ls) := by
  induction ls with
  | nil => intro st h; exact h
  | cons l rest ih =>
    intro st h
    have h' := inv_process_line st l h
    rw [scanLines]
    rcases hp : process_line st l with ⟨st', b⟩
    rw [hp] at h'
    cases b with
    | true => exact h'
    | false => exact ih st' h'

theorem inv_initState : Inv initState := by
  constructor
  · exact List.nodup_nil
  · intro k hk
    simp [initState] at hk

theorem parse_map_file_nodup (lines : List String) :
    (((parse_map_file lines).1).map symKey).Nodup := by
  have hinv := inv_scanLines lines initState inv_initState
  have hperm : List.Perm
      (List.insertionSort vmaLe (scanLines initState lines).bss_symbols)
      (scanLines initState lines).bss_symbols :=
    List.perm_insertionSort vmaLe _
  have hnd : ((List.insertionSort vmaLe
      (scanLines initState lines).bss_symbols).map symKey).Nodup :=
    ((hperm.map symKey).nodup_iff).2 hinv.1
  have h2 : (((paddingLoop none 0
      (List.insertionSort vmaLe (scanLines initState lines).bss_symbols)).1).map
        symKey).Nodup := by
    rw [paddingLoop_map_symKey]
    exact hnd
  exact h2

/-! ## The section-exit break -/

theorem maybe_add_artifact (st : ScanState) (nm objFile sizeHex : List Char) (vma : Nat)
    (h : nm = "_bss".toList ∨ nm = "_ebss".toList) :
    maybe_add st nm objFile sizeHex 0 vma = st := by
  simp only [maybe_add]
  rcases h with h | h <;> subst h <;> simp

theorem exit_conditions_nil : exit_conditions [] = false := by decide

theorem process_line_exit (st : ScanState) (l : String)
    (h1 : st.in_bss_section = true)
    (h2 : exit_conditions (pyStrip l.toList) = true) :
    process_line st l = ({ st with in_bss_section := false }, true) := by
  cases hsl : pyStrip l.toList with
  | nil => rw [hsl] at h2; exact absurd h2 (by decide)
  | cons c r =>
    rw [hsl] at h2
    simp only [process_line, hsl, h1, h2, List.isEmpty_cons, Bool.false_eq_true,
      Bool.true_eq_false, if_false, if_true]

theorem scanLines_exit_break (st : ScanState) (l : String) (ls : List String)
    (h1 : st.in_bss_section = true)
    (h2 : exit_conditions (pyStrip l.toList) = true) :
    process_line st l = ({ st with in_bss_section := false }, true) ∧
      (scanLines st (l :: ls)).bss_symbols = st.bss_symbols := by
  have hp := process_line_exit st l h1 h2
  refine ⟨hp, ?_⟩
  simp only [scanLines, hp]

/-! ## Claim theorems -/

/-- C1: the claim (and the source's own comment at line 98) says a line
`d0000000 d0000000 10 4 DEBUG` following a matched `.bss` header stops BSS
scanning with no symbol recorded.  The code disagrees:
`other_section_header_pattern` requires a literal dot before the section
name (`\.(text|...|DEBUG|...)`), so the bare `DEBUG` line matches no exit
condition and is instead recorded as a symbol named `DEBUG` of size 0x10
attributed to `unknown`, and scanning continues. -/
theorem c1_debug_line_recorded_not_exit :
    other_section_header_match (pyStrip "d0000000 d0000000 10 4 DEBUG".toList) = false ∧
    parse_map_file ["da7a0000 da7a0000 7480 8 .bss", "d0000000 d0000000 10 4 DEBUG"] =
      ([{ name := "DEBUG", size_hex := "10", size_dec := 16, vma := 0xd0000000,
          object_file := "unknown", padding_before := 0 }], 0x7480, 0) := by
  decide

/-- C2: the claim says that with `total_bss_size = 0` and a non-empty symbol
list, `print_symbols` reports every percentage as 0 and never divides by
zero.  The code disagrees: the column-width loop (source line 303) computes
`(size / total_bss_size) * 100` with no zero guard, so the call raises
`ZeroDivisionError` on exactly that input (the guards exist only at lines
330 and 361), before any row is produced. -/
theorem c2_print_symbols_zero_division :
    (parse_map_file ["da7a0000 da7a0000 0 8 .bss", "da7a0000 da7a0000 4 4 G_x"]).2.1 = 0 ∧
    (parse_map_file ["da7a0000 da7a0000 0 8 .bss", "da7a0000 da7a0000 4 4 G_x"]).1 ≠ [] ∧
    print_symbols
      (parse_map_file ["da7a0000 da7a0000 0 8 .bss", "da7a0000 da7a0000 4 4 G_x"]).1
      (parse_map_file ["da7a0000 da7a0000 0 8 .bss", "da7a0000 da7a0000 4 4 G_x"]).2.1
      (parse_map_file ["da7a0000 da7a0000 0 8 .bss", "da7a0000 da7a0000 4 4 G_x"]).2.2
      true 0 = .error .zeroDivision := by
  decide

/-- C3: for every input, no two symbols returned by `parse_map_file` share
the (name, object_file, size) triple; and a duplicate line with an identical
triple is dropped, leaving the whole result unchanged (Scenario C). -/
theorem c3_unique_triples :
    (∀ lines : List String, (((parse_map_file lines).1).map symKey).Nodup) ∧
    parse_map_file ["da7a0000 da7a0000 7480 8 .bss", "c0de0010 c0de0010 4 4 G_x",
        "c0de0014 c0de0014 8 4 G_y", "c0de0010 c0de0010 4 4 G_x"] =
      parse_map_file ["da7a0000 da7a0000 7480 8 .bss", "c0de0010 c0de0010 4 4 G_x",
        "c0de0014 c0de0014 8 4 G_y"] :=
  ⟨parse_map_file_nodup, by decide⟩

/-- C4: the returned symbols are sorted by address ascending, the first
symbol's padding_before is 0, each later symbol's padding_before is
max(0, address - previous symbol's end), and total_padding is the sum of
all padding_before values; concretely (Scenario D) a size-4 symbol at
0x100 followed by one at 0x108 gives the second a padding_before of 4. -/
theorem c4_padding_post_pass :
    (∀ lines : List String,
      ((parse_map_file lines).1).Pairwise vmaLe ∧
      (((parse_map_file lines).1).map Symbol.padding_before).headI = 0 ∧
      List.Chain' padRel ((parse_map_file lines).1) ∧
      (parse_map_file lines).2.2 =
        (((parse_map_file lines).1).map Symbol.padding_before).sum) ∧
    ((parse_map_file ["da7a0000 da7a0000 7480 8 .bss",
        "00000100 00000100 4 4 G_a", "00000108 00000108 4 4 G_b"]).1).map
      Symbol.padding_before = [0, 4] := by
  constructor
  · intro lines
    refine ⟨parse_map_file_sorted lines, ?_, ?_, ?_⟩
    · show (((paddingLoop none 0 (List.insertionSort vmaLe
        (scanLines initState lines).bss_symbols)).1).map Symbol.padding_before).headI = 0
      exact paddingLoop_headI _ 0
    · show List.Chain' padRel ((paddingLoop none 0 (List.insertionSort vmaLe
        (scanLines initState lines).bss_symbols)).1)
      exact paddingLoop_chain _ none 0
    · show (paddingLoop none 0 (List.insertionSort vmaLe
          (scanLines initState lines).bss_symbols)).2 =
        (((paddingLoop none 0 (List.insertionSort vmaLe
          (scanLines initState lines).bss_symbols)).1).map Symbol.padding_before).sum
      rw [paddingLoop_snd]
      exact Nat.zero_add _
  · decide

/-- C9: the parser boundary fails in exactly the two modelled fatal ways —
open failure and mid-scan I/O (or other) failure — both exiting the process
with status 1 after a stderr diagnostic, while any list of content lines,
however malformed, produces a normal return and never an error. -/
theorem c9_two_fatal_error_kinds :
    parse_map_file_outcome .openFail = .exited 1 true ∧
    (∀ (ioFlag : Bool) (pre : List String),
      parse_map_file_outcome (.readFail ioFlag pre) = .exited 1 true) ∧
    (∀ lines : List String,
      parse_map_file_outcome (.ok lines) = .returned (parse_map_file lines)) :=
  ⟨rfl, fun _ _ => rfl, fun _ => rfl⟩

/-- C10: `parse_map_file` never propagates an exception: every outcome
either exits the process with status 1 after a stderr diagnostic (any
exception kind, I/O or not), or returns normally with exactly the 3-tuple
(symbol list, total_bss_size, total_padding). -/
theorem c10_no_exception_propagation (o : FileOutcome) :
    parse_map_file_outcome o = .exited 1 true ∨
    (∃ lines : List String, o = .ok lines ∧
      parse_map_file_outcome o = .returned ((parse_map_file lines).1,
        (parse_map_file lines).2.1, (parse_map_file lines).2.2)) := by
  cases o with
  | openFail => exact .inl rfl
  | readFail ioFlag pre => exact .inl rfl
  | ok lines => exact .inr ⟨lines, rfl, rfl⟩

/-- C5: once any of the three section-exit conditions matches a line while
the scanner is inside the BSS section, no symbol from that line or from any
subsequent line of the input is added to the symbol table. -/
theorem c5_exit_immediacy (st : ScanState) (l : String) (ls : List String)
    (h1 : st.in_bss_section = true)
    (h2 : exit_conditions (pyStrip l.toList) = true) :
    (scanLines st (l :: ls)).bss_symbols = st.bss_symbols :=
  (scanLines_exit_break st l ls h1 h2).2

/-- C5 witness: a `.text` header inside BSS halts the scan before a
following symbol line. -/
theorem c5_exit_immediacy_witness :
    ({ initState with in_bss_section := true } : ScanState).in_bss_section = true ∧
    exit_conditions (pyStrip "c0de0000 c0de0000 2c346 8 .text".toList) = true ∧
    (scanLines { initState with in_bss_section := true }
      ["c0de0000 c0de0000 2c346 8 .text", "c0de0010 c0de0010 4 4 G_z"]).bss_symbols =
      ({ initState with in_bss_section := true } : ScanState).bss_symbols :=
  ⟨rfl, by decide, c5_exit_immediacy _ _ _ rfl (by decide)⟩

/-- C6: an object-file/section remainder updates the sticky context exactly
when its path ends in one of `.o .obj .a .lib .elf .s`; the symbol's
object file is the (possibly just-updated) sticky context; a plain-symbol
remainder inherits the context unchanged; and Scenario B yields `G_x`
(size 4) and `G_y` (size 8), both attributed to `build/obj/app/foo.o`. -/
theorem c6_sticky_object_file_context :
    (∀ (ctx rem p0 c0 : List Char), obj_sec_match rem = some (p0, c0) →
      ends_with_obj_ext (pyStrip p0) = true →
      classify_remainder ctx rem =
        (bss_sym_search (pyStrip c0), some (pyStrip p0), pyStrip p0)) ∧
    (∀ (ctx rem p0 c0 : List Char), obj_sec_match rem = some (p0, c0) →
      ends_with_obj_ext (pyStrip p0) = false →
      classify_remainder ctx rem =
        (bss_sym_search (pyStrip c0), some ctx, ctx)) ∧
    (∀ (ctx rem nm : List Char), obj_sec_match rem = none →
      plain_symbol_match rem = some nm →
      classify_remainder ctx rem = (some nm, some ctx, ctx)) ∧
    parse_map_file ["da7a0000 da7a0000 7480 8 .bss",
        "c0de0010 c0de0010 4 4 build/obj/app/foo.o:(.bss.G_x)",
        "c0de0014 c0de0014 8 4 G_y"] =
      ([{ name := "G_x", size_hex := "4", size_dec := 4, vma := 0xc0de0010,
          object_file := "build/obj/app/foo.o", padding_before := 0 },
        { name := "G_y", size_hex := "8", size_dec := 8, vma := 0xc0de0014,
          object_file := "build/obj/app/foo.o", padding_before := 0 }], 0x7480, 0) := by
  refine ⟨?_, ?_, ?_, by decide⟩
  · intro ctx rem p0 c0 hm he
    simp [classify_remainder, hm, he]
  · intro ctx rem p0 c0 hm he
    simp [classify_remainder, hm, he]
  · intro ctx rem nm hm hp
    simp [classify_remainder, hm, hp]

/-- C6 witness: the Scenario B object-file line, concretely. -/
theorem c6_sticky_object_file_context_witness :
    obj_sec_match "build/obj/app/foo.o:(.bss.G_x)".toList =
      some ("build/obj/app/foo.o".toList, ".bss.G_x".toList) ∧
    ends_with_obj_ext (pyStrip "build/obj/app/foo.o".toList) = true ∧
    classify_remainder "unknown".toList "build/obj/app/foo.o:(.bss.G_x)".toList =
      (bss_sym_search (pyStrip ".bss.G_x".toList),
        some (pyStrip "build/obj/app/foo.o".toList),
        pyStrip "build/obj/app/foo.o".toList) :=
  ⟨by decide, by decide,
    c6_sticky_object_file_context.1 _ _ _ _ (by decide) (by decide)⟩

/-- C7: a line inside BSS whose decoded size field is 0 and whose symbol
name is `_bss` or `_ebss` adds no symbol to the table; Scenario E: a
zero-size `_ebss` line leaves the table empty. -/
theorem c7_zero_size_artifacts_dropped :
    (∀ (st : ScanState) (l : String)
      (g : List Char × List Char × List Char × List Char × List Char) (nm : List Char),
      st.in_bss_section = true →
      line_parser_match (pyStrip l.toList) = some g →
      hexVal g.2.2.1 = 0 →
      (classify_remainder st.current_object_file_context (pyStrip g.2.2.2.2)).1 = some nm →
      (nm = "_bss".toList ∨ nm = "_ebss".toList) →
      ((process_line st l).1).bss_symbols = st.bss_symbols) ∧
    (parse_map_file ["da7a0000 da7a0000 7480 8 .bss",
        "00000000 00000000 0 4 _ebss"]).1 = [] := by
  refine ⟨?_, by decide⟩
  intro st l g nm h1 hlp hsz hcl hnm
  cases hsl : pyStrip l.toList with
  | nil =>
    rw [hsl] at hlp
    have hnone : line_parser_match ([] : List Char) = none := rfl
    rw [hnone] at hlp
    exact Option.noConfusion hlp
  | cons c r =>
    rw [hsl] at hlp
    cases hexit : exit_conditions (c :: r) with
    | true =>
      simp only [process_line, hsl, h1, hexit, List.isEmpty_cons, Bool.false_eq_true,
        Bool.true_eq_false, if_false, if_true]
    | false =>
      simp only [process_line, hsl, h1, hexit, hlp, hcl, List.isEmpty_cons,
        Bool.false_eq_true, Bool.true_eq_false, if_false, if_true]
      rw [hsz, maybe_add_artifact _ _ _ _ _ hnm]

/-- C7 witness: a zero-size `_bss` line inside BSS, concretely. -/
theorem c7_zero_size_artifacts_dropped_witness :
    ((process_line { initState with in_bss_section := true }
      "00000000 00000000 0 4 _bss").1).bss_symbols =
      ({ initState with in_bss_section := true } : ScanState).bss_symbols :=
  c7_zero_size_artifacts_dropped.1 _ _
    ("00000000".toList, "00000000".toList, "0".toList, "4".toList, "_bss".toList)
    "_bss".toList rfl (by decide) (by decide) (by decide) (.inl rfl)

/-- C8 counterexample: the line
`c0de0000 c0de0000 8 4 foo.o:(.data .bss.G_w)` reached inside BSS contains
a dotted section tag that is not `.bss` (namely `.data`, and `.o`), yet
scanning does not terminate there: the code's third exit condition also
requires that the substring `.bss` occur nowhere on the line, so a symbol
is recorded from that line and from a subsequent line. -/
theorem c8_counterexample_dotted_tag_no_exit :
    contains_dotted_tag_other_than_bss
      (pyStrip "c0de0000 c0de0000 8 4 foo.o:(.data .bss.G_w)".toList) = true ∧
    ((parse_map_file ["da7a0000 da7a0000 7480 8 .bss",
        "c0de0000 c0de0000 8 4 foo.o:(.data .bss.G_w)",
        "c0de0010 c0de0010 4 4 G_later"]).1).map Symbol.name = ["G_w", "G_later"] := by
  decide

/-- C8 (amended): a line reached inside BSS that contains a
dot-plus-word-characters token followed by whitespace AND nowhere contains
the substring `.bss` terminates BSS scanning immediately: the loop breaks
at that line and no symbol from it or any later line is added. -/
theorem c8_dotted_tag_exit_amended (st : ScanState) (l : String) (ls : List String)
    (h1 : st.in_bss_section = true)
    (h2 : dot_word_space_search (pyStrip l.toList) = true)
    (h3 : containsSub ['.', 'b', 's', 's'] (pyStrip l.toList) = false) :
    (process_line st l).2 = true ∧
      (scanLines st (l :: ls)).bss_symbols = st.bss_symbols := by
  have hexit : exit_conditions (pyStrip l.toList) = true := by
    unfold exit_conditions
    rw [h2, h3]
    simp
  have h := scanLines_exit_break st l ls h1 hexit
  exact ⟨by rw [h.1], h.2⟩

/-- C8 amended-claim witness: a stray `.text` tag on a line without any
`.bss` substring, concretely. -/
theorem c8_dotted_tag_exit_amended_witness :
    dot_word_space_search (pyStrip "c0de0000 c0de0000 10 4 .text marker".toList) = true ∧
    containsSub ['.', 'b', 's', 's']
      (pyStrip "c0de0000 c0de0000 10 4 .text marker".toList) = false ∧
    (scanLines { initState with in_bss_section := true }
      ["c0de0000 c0de0000 10 4 .text marker", "c0de0010 c0de0010 4 4 G_z"]).bss_symbols =
      ({ initState with in_bss_section := true } : ScanState).bss_symbols :=
  ⟨by decide, by decide,
    (c8_dotted_tag_exit_amended _ _ _ rfl (by decide) (by decide)).2⟩

end MapParser

